import Mathlib

/-!
# Verification of the permission-flow state tracker

Shallow embedding of `src/PermissionSettingsModal/index.tsx`:

* `maybeRequestPermission` — the body of the `request` callback of
  `usePermission`.  One invocation is modelled as a pure function from the
  inputs the closure reads (the saved state, the auto-request flag, the
  `noRender` option, and the outcomes the platform provider will deliver for
  `check()` / `ask()`) to the outcome the invocation produces: the value the
  promise resolves with, the final saved state, and the ordered trace of
  observable effects (provider calls, settings-redirect flow, informational
  dialog, diagnostic reports, state writes, re-render notifications).
* `handleAppStateChange` / `runAppStateListener` — the app-state listener
  installed by `openPermissionSettings` after opening the OS settings screen,
  modelled as a fold of the handler over a timed sequence of app-state
  change events.
-/

namespace PermissionFlow

/-- Provider statuses (`PermissionStatus` of the expo permission modules). -/
inductive PermissionStatus
  | granted
  | denied
  | undetermined
deriving DecidableEq, Repr

/-- Tracker states (`enum PermissionState` of `usePermission`). -/
inductive PermissionState
  | notYetRequested
  | requesting
  | granted
  | denied
  | unexpectedError
deriving DecidableEq, Repr

/-- Response (`PermissionResponse`) that the provider `check()` / `ask()` calls return
on success. -/
structure PermissionResponse where
  status : PermissionStatus
  canAskAgain : Bool
deriving DecidableEq, Repr

/-- Outcome of one awaited provider call: a response, or a raised error
(caught by the surrounding `try`/`catch`). -/
inductive ProviderResult
  | ok (response : PermissionResponse)
  | raise
deriving DecidableEq, Repr

/-- Observable effects of one invocation of `maybeRequestPermission`, in
program order:

* `checkCall` / `askCall` — the provider `check()` / `ask()` invocation;
* `settingsFlow` — the `openPermissionSettings` (Settings Redirect Flow)
  invocation, run to completion before the trace continues;
* `dialog` — the one-shot `BasicModal` informational dialog;
* `report origin` — a `captureSentry` diagnostic report to the notification
  sink, tagged with its origin string;
* `stateSet s` — a write of `savedState.current` (emitted by `setState` only
  when the value actually changes);
* `render` — a `forceUpdate()` re-render notification. -/
inductive Event
  | checkCall
  | askCall
  | settingsFlow
  | dialog
  | report (origin : String)
  | stateSet (s : PermissionState)
  | render
deriving DecidableEq, Repr

/-- Holds (`true`) exactly for diagnostic reports to the notification sink. -/
def Event.isReport : Event → Bool
  | Event.report _ => true
  | _ => false

/-- Everything one invocation of `maybeRequestPermission` reads:

* `noRender` — `savedInputs.current.options?.noRender`;
* `isAutoRequest` — `savedIsAutoRequest.current` at entry (the closure
  resets it to `false` immediately, so it only matters for this call);
* `prevState` — `savedState.current` at entry;
* `checkResult` / `askResult` — what the provider will deliver for the
  `check()` / `ask()` call, should the invocation perform it. -/
structure RequestInputs where
  noRender : Bool
  isAutoRequest : Bool
  prevState : PermissionState
  checkResult : ProviderResult
  askResult : ProviderResult
deriving DecidableEq, Repr

/-- What one invocation of `maybeRequestPermission` produces: the
`PermissionState` the returned promise resolves with, the saved state when
the invocation finishes, and the trace of observable effects. -/
structure RequestOutcome where
  resolved : PermissionState
  finalState : PermissionState
  events : List Event
deriving DecidableEq, Repr

/-- Effects of the `setState` helper: when the next state differs from the
current one it writes `savedState.current` and, unless `noRender` is set,
calls `forceUpdate()`; otherwise it does nothing. -/
def setStateEvents (noRender : Bool) (cur next : PermissionState) :
    List Event :=
  if cur = next then []
  else Event.stateSet next :: (if noRender then [] else [Event.render])

/-- One invocation of the `request` callback (`maybeRequestPermission` in
`usePermission`), transcribed from the source:

* if `savedState.current` is `Granted`, report to Sentry and resolve with the
  unchanged state without touching the provider;
* if it is `Requesting` and this call is not the auto-request kickoff, report
  to Sentry and resolve with the unchanged state without touching the
  provider;
* otherwise run the acquisition sequence: set state `Requesting`, await
  `check()` (a raise reports and settles on `UnexpectedError`); a `GRANTED`
  check settles on `Granted`; otherwise, when `canAskAgain` is false, run
  `openPermissionSettings` to completion, then await `ask()` (a raise reports
  and settles on `UnexpectedError`); a `GRANTED` ask settles on `Granted`; a
  `DENIED` ask first shows the informational dialog when the check had
  `canAskAgain` false, then settles on `Denied`; an `UNDETERMINED` ask
  reports and settles on `UnexpectedError`.  (The source's final `else` for a
  status outside the platform enum is unreachable here because
  `PermissionStatus` is closed.) -/
def maybeRequestPermission (inp : RequestInputs) : RequestOutcome :=
  if inp.prevState = PermissionState.granted then
    { resolved := inp.prevState
      finalState := inp.prevState
      events := [Event.report "usePermission.maybeRequestPermission"] }
  else if inp.prevState = PermissionState.requesting ∧
      inp.isAutoRequest = false then
    { resolved := inp.prevState
      finalState := inp.prevState
      events := [Event.report "usePermission.maybeRequestPermission"] }
  else
    let startEvents :=
      setStateEvents inp.noRender inp.prevState PermissionState.requesting
    match inp.checkResult with
    | ProviderResult.raise =>
        { resolved := PermissionState.unexpectedError
          finalState := PermissionState.unexpectedError
          events := startEvents ++
            [Event.checkCall,
             Event.report "usePermission.requestPermission.checkMethod"] ++
            setStateEvents inp.noRender PermissionState.requesting
              PermissionState.unexpectedError }
    | ProviderResult.ok checkResponse =>
        if checkResponse.status = PermissionStatus.granted then
          { resolved := PermissionState.granted
            finalState := PermissionState.granted
            events := startEvents ++ [Event.checkCall] ++
              setStateEvents inp.noRender PermissionState.requesting
                PermissionState.granted }
        else
          let settingsEvents :=
            if checkResponse.canAskAgain = false then [Event.settingsFlow]
            else []
          match inp.askResult with
          | ProviderResult.raise =>
              { resolved := PermissionState.unexpectedError
                finalState := PermissionState.unexpectedError
                events := startEvents ++ [Event.checkCall] ++ settingsEvents ++
                  [Event.askCall,
                   Event.report "usePermission.requestPermission.askMethod"] ++
                  setStateEvents inp.noRender PermissionState.requesting
                    PermissionState.unexpectedError }
          | ProviderResult.ok askResponse =>
              if askResponse.status = PermissionStatus.granted then
                { resolved := PermissionState.granted
                  finalState := PermissionState.granted
                  events := startEvents ++ [Event.checkCall] ++
                    settingsEvents ++ [Event.askCall] ++
                    setStateEvents inp.noRender PermissionState.requesting
                      PermissionState.granted }
              else if askResponse.status = PermissionStatus.denied then
                { resolved := PermissionState.denied
                  finalState := PermissionState.denied
                  events := startEvents ++ [Event.checkCall] ++
                    settingsEvents ++ [Event.askCall] ++
                    (if checkResponse.canAskAgain = false then [Event.dialog]
                     else []) ++
                    setStateEvents inp.noRender PermissionState.requesting
                      PermissionState.denied }
              else
                { resolved := PermissionState.unexpectedError
                  finalState := PermissionState.unexpectedError
                  events := startEvents ++ [Event.checkCall] ++
                    settingsEvents ++
                    [Event.askCall,
                     Event.report
                       "usePermission.requestPermission.askMethod"] ++
                    setStateEvents inp.noRender PermissionState.requesting
                      PermissionState.unexpectedError }

/-- The invocation is neither of the two short-circuits, so the acquisition
sequence runs: the saved state is not `Granted`, and if it is `Requesting`
the call is the auto-request kickoff. -/
def acquisitionRuns (inp : RequestInputs) : Prop :=
  inp.prevState ≠ PermissionState.granted ∧
  (inp.prevState = PermissionState.requesting → inp.isAutoRequest = true)

instance (inp : RequestInputs) : Decidable (acquisitionRuns inp) := by
  unfold acquisitionRuns
  infer_instance

/-- The `state` field of the API object `usePermission` returns: `undefined`
(`none`) when the `noRender` option is set, the tracked state otherwise. -/
def usePermissionState (noRender : Bool) (savedState : PermissionState) :
    Option PermissionState :=
  if noRender then none else some savedState

/-- Initial saved state at mount: `Requesting` when auto-request is
configured, else `NotYetRequested`. -/
def initialSavedState (autoRequest : Bool) : PermissionState :=
  if autoRequest then PermissionState.requesting
  else PermissionState.notYetRequested

/-- React Native `AppStateStatus` values a change event can carry. -/
inductive AppStateStatus
  | active
  | background
  | inactive
deriving DecidableEq, Repr

/-- One `AppState` change event: the new app state and the wall-clock time
(in milliseconds) at which the handler observes it. -/
structure AppStateEvent where
  nextAppState : AppStateStatus
  timeMs : Int
deriving DecidableEq, Repr

/-- State of the promise set up by `openPermissionSettings` after it opens
the OS settings screen: whether `handleAppStateChange` is still subscribed
to `AppState` changes, and whether the promise has resolved. -/
structure ListenerState where
  subscribed : Bool
  resolved : Bool
deriving DecidableEq, Repr

/-- Right after `openAppSettings()`: listener subscribed, promise pending. -/
def initialListener : ListenerState :=
  { subscribed := true, resolved := false }

/-- The app-state change qualifies to complete the flow: the app became
`active` strictly more than 1000 ms after the settings screen was opened. -/
def qualifying (settingsOpenedAt : Int) (ev : AppStateEvent) : Prop :=
  ev.nextAppState = AppStateStatus.active ∧
  ev.timeMs - settingsOpenedAt > 1000

instance (settingsOpenedAt : Int) (ev : AppStateEvent) :
    Decidable (qualifying settingsOpenedAt ev) := by
  unfold qualifying
  infer_instance

/-- Handler `handleAppStateChange` of `openPermissionSettings`: once unsubscribed it
is no longer invoked (modelled as the identity); while subscribed, an
`active` event arriving more than 1000 ms after `settingsOpenedAt` removes
the listener and resolves the promise, and every other event is ignored. -/
def handleAppStateChange (settingsOpenedAt : Int) (st : ListenerState)
    (ev : AppStateEvent) : ListenerState :=
  if st.subscribed = false then st
  else if ev.nextAppState = AppStateStatus.active ∧
      ev.timeMs - settingsOpenedAt > 1000 then
    { subscribed := false, resolved := true }
  else st

/-- Listener state after the handler has processed a sequence of app-state
change events, in order, starting from `initialListener`. -/
def runAppStateListener (settingsOpenedAt : Int)
    (events : List AppStateEvent) : ListenerState :=
  events.foldl (handleAppStateChange settingsOpenedAt) initialListener

/-- Derived helper (used only to state the trace-shape lemma below): the
state `maybeRequestPermission` settles on after the `ask()` call, given the
check response `cr` and the ask outcome. -/
def afterAskState : ProviderResult → PermissionState
  | ProviderResult.raise => PermissionState.unexpectedError
  | ProviderResult.ok ar =>
      if ar.status = PermissionStatus.granted then PermissionState.granted
      else if ar.status = PermissionStatus.denied then PermissionState.denied
      else PermissionState.unexpectedError

/-- Derived helper (used only to state the trace-shape lemma below): the
events `maybeRequestPermission` emits after the `askCall` event, given the
check response `cr` and the ask outcome. -/
def afterAskEvents (noRender : Bool) (cr : PermissionResponse) :
    ProviderResult → List Event
  | ProviderResult.raise =>
      Event.report "usePermission.requestPermission.askMethod" ::
        setStateEvents noRender PermissionState.requesting
          PermissionState.unexpectedError
  | ProviderResult.ok ar =>
      if ar.status = PermissionStatus.granted then
        setStateEvents noRender PermissionState.requesting
          PermissionState.granted
      else if ar.status = PermissionStatus.denied then
        (if cr.canAskAgain = false then [Event.dialog] else []) ++
          setStateEvents noRender PermissionState.requesting
            PermissionState.denied
      else
        Event.report "usePermission.requestPermission.askMethod" ::
          setStateEvents noRender PermissionState.requesting
            PermissionState.unexpectedError

/-! ## Helper lemmas -/

lemma setStateEvents_subset (b : Bool) (c n : PermissionState) (e : Event)
    (he : e ∈ setStateEvents b c n) :
    e = Event.stateSet n ∨ e = Event.render := by
  unfold setStateEvents at he
  split_ifs at he <;> simp_all

lemma not_mem_setStateEvents {e : Event} (b : Bool) (c n : PermissionState)
    (h1 : e ≠ Event.stateSet n) (h2 : e ≠ Event.render) :
    e ∉ setStateEvents b c n := by
  intro hm
  rcases setStateEvents_subset b c n e hm with h | h
  exacts [h1 h, h2 h]

lemma not_busy_of_acquisitionRuns {inp : RequestInputs}
    (h : acquisitionRuns inp) :
    ¬(inp.prevState = PermissionState.requesting ∧
      inp.isAutoRequest = false) := by
  rintro ⟨ha, hb⟩
  rw [h.2 ha] at hb
  exact Bool.noConfusion hb

lemma acquisition_ok_not_granted (noRender isAuto : Bool)
    (prev : PermissionState) (cr : PermissionResponse)
    (askR : ProviderResult) (h1 : prev ≠ PermissionState.granted)
    (h2 : ¬(prev = PermissionState.requesting ∧ isAuto = false))
    (hst : cr.status ≠ PermissionStatus.granted) :
    maybeRequestPermission
        ⟨noRender, isAuto, prev, ProviderResult.ok cr, askR⟩ =
      { resolved := afterAskState askR
        finalState := afterAskState askR
        events :=
          setStateEvents noRender prev PermissionState.requesting ++
          [Event.checkCall] ++
          (if cr.canAskAgain = false then [Event.settingsFlow] else []) ++
          [Event.askCall] ++ afterAskEvents noRender cr askR } := by
  unfold maybeRequestPermission afterAskState afterAskEvents
  rw [if_neg h1, if_neg h2]
  simp only
  rw [if_neg hst]
  rcases askR with ⟨ast, aask⟩ | _
  · simp only
    split_ifs <;> simp
  · simp

lemma mem_afterAskEvents (b : Bool) (cr : PermissionResponse)
    (askR : ProviderResult) (e : Event)
    (he : e ∈ afterAskEvents b cr askR) :
    (∃ s, e = Event.report s) ∨ e = Event.dialog ∨
    (∃ s, e = Event.stateSet s) ∨ e = Event.render := by
  have hset : ∀ c n : PermissionState, e ∈ setStateEvents b c n →
      (∃ s, e = Event.report s) ∨ e = Event.dialog ∨
      (∃ s, e = Event.stateSet s) ∨ e = Event.render := by
    intro c n hm
    rcases setStateEvents_subset b c n e hm with h | h
    · exact Or.inr (Or.inr (Or.inl ⟨n, h⟩))
    · exact Or.inr (Or.inr (Or.inr h))
  rcases askR with ⟨ar⟩ | _
  · simp only [afterAskEvents] at he
    by_cases hg : ar.status = PermissionStatus.granted
    · rw [if_pos hg] at he
      exact hset _ _ he
    · rw [if_neg hg] at he
      by_cases hd : ar.status = PermissionStatus.denied
      · rw [if_pos hd] at he
        rcases List.mem_append.mp he with h | h
        · by_cases hca : cr.canAskAgain = false
          · rw [if_pos hca] at h
            simp only [List.mem_singleton] at h
            exact Or.inr (Or.inl h)
          · rw [if_neg hca] at h
            exact absurd h (List.not_mem_nil e)
        · exact hset _ _ h
      · rw [if_neg hd] at he
        rcases List.mem_cons.mp he with h | h
        · exact Or.inl ⟨_, h⟩
        · exact hset _ _ h
  · simp only [afterAskEvents] at he
    rcases List.mem_cons.mp he with h | h
    · exact Or.inl ⟨_, h⟩
    · exact hset _ _ h

lemma askCall_not_mem_afterAskEvents (b : Bool) (cr : PermissionResponse)
    (askR : ProviderResult) :
    Event.askCall ∉ afterAskEvents b cr askR := by
  intro hm
  rcases mem_afterAskEvents b cr askR _ hm with ⟨s, h⟩ | h | ⟨s, h⟩ | h <;>
    exact Event.noConfusion h

lemma settingsFlow_not_mem_afterAskEvents (b : Bool)
    (cr : PermissionResponse) (askR : ProviderResult) :
    Event.settingsFlow ∉ afterAskEvents b cr askR := by
  intro hm
  rcases mem_afterAskEvents b cr askR _ hm with ⟨s, h⟩ | h | ⟨s, h⟩ | h <;>
    exact Event.noConfusion h

lemma acquisition_raise (noRender isAuto : Bool) (prev : PermissionState)
    (askR : ProviderResult) (h1 : prev ≠ PermissionState.granted)
    (h2 : ¬(prev = PermissionState.requesting ∧ isAuto = false)) :
    maybeRequestPermission
        ⟨noRender, isAuto, prev, ProviderResult.raise, askR⟩ =
      { resolved := PermissionState.unexpectedError
        finalState := PermissionState.unexpectedError
        events :=
          setStateEvents noRender prev PermissionState.requesting ++
          [Event.checkCall,
           Event.report "usePermission.requestPermission.checkMethod"] ++
          setStateEvents noRender PermissionState.requesting
            PermissionState.unexpectedError } := by
  unfold maybeRequestPermission
  rw [if_neg h1, if_neg h2]

lemma acquisition_ok_granted (noRender isAuto : Bool)
    (prev : PermissionState) (cr : PermissionResponse)
    (askR : ProviderResult) (h1 : prev ≠ PermissionState.granted)
    (h2 : ¬(prev = PermissionState.requesting ∧ isAuto = false))
    (hst : cr.status = PermissionStatus.granted) :
    maybeRequestPermission
        ⟨noRender, isAuto, prev, ProviderResult.ok cr, askR⟩ =
      { resolved := PermissionState.granted
        finalState := PermissionState.granted
        events :=
          setStateEvents noRender prev PermissionState.requesting ++
          [Event.checkCall] ++
          setStateEvents noRender PermissionState.requesting
            PermissionState.granted } := by
  unfold maybeRequestPermission
  rw [if_neg h1, if_neg h2]
  simp only
  rw [if_pos hst]

lemma render_not_mem_setStateEvents_noRender (c n : PermissionState) :
    Event.render ∉ setStateEvents true c n := by
  unfold setStateEvents
  split_ifs <;> simp_all

lemma render_not_mem_afterAskEvents_noRender (cr : PermissionResponse)
    (askR : ProviderResult) :
    Event.render ∉ afterAskEvents true cr askR := by
  rcases askR with ⟨ar⟩ | _ <;>
    simp only [afterAskEvents, setStateEvents] <;>
    split_ifs <;> simp_all

lemma countP_isReport_setStateEvents (b : Bool) (c n : PermissionState) :
    (setStateEvents b c n).countP Event.isReport = 0 := by
  refine List.countP_eq_zero.mpr ?_
  intro e he
  rcases setStateEvents_subset b c n e he with h | h <;> subst h <;>
    simp [Event.isReport]

lemma countP_isReport_afterAskEvents_raise (b : Bool)
    (cr : PermissionResponse) :
    (afterAskEvents b cr ProviderResult.raise).countP Event.isReport = 1 := by
  simp only [afterAskEvents]
  rw [List.countP_cons]
  simp [Event.isReport, countP_isReport_setStateEvents]

lemma settingsFlow_not_mem_setStateEvents (b : Bool)
    (c n : PermissionState) : Event.settingsFlow ∉ setStateEvents b c n :=
  not_mem_setStateEvents b c n (by simp) (by simp)

lemma askCall_not_mem_setStateEvents (b : Bool) (c n : PermissionState) :
    Event.askCall ∉ setStateEvents b c n :=
  not_mem_setStateEvents b c n (by simp) (by simp)

lemma checkCall_not_mem_setStateEvents (b : Bool) (c n : PermissionState) :
    Event.checkCall ∉ setStateEvents b c n :=
  not_mem_setStateEvents b c n (by simp) (by simp)

lemma dialog_not_mem_setStateEvents (b : Bool) (c n : PermissionState) :
    Event.dialog ∉ setStateEvents b c n :=
  not_mem_setStateEvents b c n (by simp) (by simp)

lemma resolved_eq_finalState (inp : RequestInputs) :
    (maybeRequestPermission inp).resolved =
      (maybeRequestPermission inp).finalState := by
  obtain ⟨noRender, isAuto, prev, checkR, askR⟩ := inp
  by_cases hg : prev = PermissionState.granted
  · unfold maybeRequestPermission
    rw [if_pos hg]
  · by_cases hb : prev = PermissionState.requesting ∧ isAuto = false
    · unfold maybeRequestPermission
      rw [if_neg hg, if_pos hb]
    · rcases checkR with ⟨cr⟩ | _
      · by_cases hst : cr.status = PermissionStatus.granted
        · rw [acquisition_ok_granted noRender isAuto prev cr askR hg hb hst]
        · rw [acquisition_ok_not_granted noRender isAuto prev cr askR hg hb
            hst]
      · rw [acquisition_raise noRender isAuto prev askR hg hb]

lemma render_not_mem_events_noRender (inp : RequestInputs)
    (h : inp.noRender = true) :
    Event.render ∉ (maybeRequestPermission inp).events := by
  obtain ⟨noRender, isAuto, prev, checkR, askR⟩ := inp
  simp only at h
  subst h
  by_cases hg : prev = PermissionState.granted
  · unfold maybeRequestPermission
    rw [if_pos hg]
    simp
  · by_cases hb : prev = PermissionState.requesting ∧ isAuto = false
    · unfold maybeRequestPermission
      rw [if_neg hg, if_pos hb]
      simp
    · rcases checkR with ⟨cr⟩ | _
      · by_cases hst : cr.status = PermissionStatus.granted
        · rw [acquisition_ok_granted true isAuto prev cr askR hg hb hst]
          simp [List.mem_append, render_not_mem_setStateEvents_noRender]
        · rw [acquisition_ok_not_granted true isAuto prev cr askR hg hb hst]
          by_cases hca : cr.canAskAgain = false <;>
            simp [hca, List.mem_append,
              render_not_mem_setStateEvents_noRender,
              render_not_mem_afterAskEvents_noRender]
      · rw [acquisition_raise true isAuto prev askR hg hb]
        simp [List.mem_append, render_not_mem_setStateEvents_noRender]

lemma handleAppStateChange_not_qualifying (t : Int) (st : ListenerState)
    (ev : AppStateEvent) (h : ¬ qualifying t ev) :
    handleAppStateChange t st ev = st := by
  unfold qualifying at h
  unfold handleAppStateChange
  rw [if_neg h, ite_self]

lemma handleAppStateChange_unsubscribed (t : Int) (r : Bool)
    (ev : AppStateEvent) :
    handleAppStateChange t ⟨false, r⟩ ev = ⟨false, r⟩ := by
  unfold handleAppStateChange
  rw [if_pos rfl]

lemma foldl_handle_not_qualifying (t : Int) (evs : List AppStateEvent)
    (st : ListenerState) (h : ∀ ev ∈ evs, ¬ qualifying t ev) :
    evs.foldl (handleAppStateChange t) st = st := by
  induction evs generalizing st with
  | nil => rfl
  | cons ev rest ih =>
      rw [List.foldl_cons,
        handleAppStateChange_not_qualifying t st ev (h ev (by simp))]
      exact ih st (fun e he => h e (by simp [he]))

lemma foldl_handle_after_resolved (t : Int) (evs : List AppStateEvent)
    (r : Bool) :
    evs.foldl (handleAppStateChange t) ⟨false, r⟩ = ⟨false, r⟩ := by
  induction evs with
  | nil => rfl
  | cons ev rest ih =>
      rw [List.foldl_cons, handleAppStateChange_unsubscribed t r ev]
      exact ih

/-! ## Theorems about the claims -/

/-- C5: calling `request()` while the session state is `Granted` leaves the
state unchanged (no state write at all), does not invoke the provider's
`check()` or `ask()`, and resolves with `Granted`. -/
theorem request_while_granted (inp : RequestInputs)
    (h : inp.prevState = PermissionState.granted) :
    (maybeRequestPermission inp).finalState = PermissionState.granted ∧
    (maybeRequestPermission inp).resolved = PermissionState.granted ∧
    Event.checkCall ∉ (maybeRequestPermission inp).events ∧
    Event.askCall ∉ (maybeRequestPermission inp).events ∧
    ∀ s, Event.stateSet s ∉ (maybeRequestPermission inp).events := by
  unfold maybeRequestPermission
  rw [if_pos h, h]
  simp

/-- C5 witness: concrete instance of `request_while_granted`. -/
theorem request_while_granted_witness :
    (maybeRequestPermission
      { noRender := false, isAutoRequest := false,
        prevState := PermissionState.granted,
        checkResult := ProviderResult.raise,
        askResult := ProviderResult.raise }).finalState =
      PermissionState.granted ∧
    (maybeRequestPermission
      { noRender := false, isAutoRequest := false,
        prevState := PermissionState.granted,
        checkResult := ProviderResult.raise,
        askResult := ProviderResult.raise }).resolved =
      PermissionState.granted ∧
    Event.checkCall ∉ (maybeRequestPermission
      { noRender := false, isAutoRequest := false,
        prevState := PermissionState.granted,
        checkResult := ProviderResult.raise,
        askResult := ProviderResult.raise }).events ∧
    Event.askCall ∉ (maybeRequestPermission
      { noRender := false, isAutoRequest := false,
        prevState := PermissionState.granted,
        checkResult := ProviderResult.raise,
        askResult := ProviderResult.raise }).events ∧
    ∀ s, Event.stateSet s ∉ (maybeRequestPermission
      { noRender := false, isAutoRequest := false,
        prevState := PermissionState.granted,
        checkResult := ProviderResult.raise,
        askResult := ProviderResult.raise }).events :=
  request_while_granted
    { noRender := false, isAutoRequest := false,
      prevState := PermissionState.granted,
      checkResult := ProviderResult.raise,
      askResult := ProviderResult.raise } rfl

/-- C6: calling `request()` while a genuine (non-auto-request) request is in
flight (state `Requesting`) short-circuits: it resolves with the in-flight
`Requesting` state, the state is unchanged, and the provider is not
invoked. -/
theorem request_while_requesting (inp : RequestInputs)
    (h1 : inp.prevState = PermissionState.requesting)
    (h2 : inp.isAutoRequest = false) :
    (maybeRequestPermission inp).resolved = PermissionState.requesting ∧
    (maybeRequestPermission inp).finalState = PermissionState.requesting ∧
    Event.checkCall ∉ (maybeRequestPermission inp).events ∧
    Event.askCall ∉ (maybeRequestPermission inp).events ∧
    ∀ s, Event.stateSet s ∉ (maybeRequestPermission inp).events := by
  unfold maybeRequestPermission
  rw [if_neg (by rw [h1]; exact fun hc => PermissionState.noConfusion hc),
    if_pos ⟨h1, h2⟩, h1]
  simp

/-- C6 witness: concrete instance of `request_while_requesting`. -/
theorem request_while_requesting_witness :
    (maybeRequestPermission
      { noRender := false, isAutoRequest := false,
        prevState := PermissionState.requesting,
        checkResult := ProviderResult.raise,
        askResult := ProviderResult.raise }).resolved =
      PermissionState.requesting ∧
    (maybeRequestPermission
      { noRender := false, isAutoRequest := false,
        prevState := PermissionState.requesting,
        checkResult := ProviderResult.raise,
        askResult := ProviderResult.raise }).finalState =
      PermissionState.requesting ∧
    Event.checkCall ∉ (maybeRequestPermission
      { noRender := false, isAutoRequest := false,
        prevState := PermissionState.requesting,
        checkResult := ProviderResult.raise,
        askResult := ProviderResult.raise }).events ∧
    Event.askCall ∉ (maybeRequestPermission
      { noRender := false, isAutoRequest := false,
        prevState := PermissionState.requesting,
        checkResult := ProviderResult.raise,
        askResult := ProviderResult.raise }).events ∧
    ∀ s, Event.stateSet s ∉ (maybeRequestPermission
      { noRender := false, isAutoRequest := false,
        prevState := PermissionState.requesting,
        checkResult := ProviderResult.raise,
        askResult := ProviderResult.raise }).events :=
  request_while_requesting
    { noRender := false, isAutoRequest := false,
      prevState := PermissionState.requesting,
      checkResult := ProviderResult.raise,
      askResult := ProviderResult.raise } rfl rfl

/-- C7 counterexample: with the session state `UnexpectedError`, a call to
`request()` does invoke the provider's `check()` — the claim that
`UnexpectedError` is absorbing fails on the code (the `else` branch of
`maybeRequestPermission` runs the acquisition sequence for every state other
than `Granted` and in-flight `Requesting`). -/
theorem unexpectedError_absorbing_cx :
    Event.checkCall ∈ (maybeRequestPermission
      ⟨false, false, PermissionState.unexpectedError,
        ProviderResult.ok ⟨PermissionStatus.granted, true⟩,
        ProviderResult.ok ⟨PermissionStatus.granted, true⟩⟩).events := by
  decide

/-- C7 amended: `UnexpectedError` is not absorbing — calling `request()`
while the session state is `UnexpectedError` starts a new acquisition
sequence: the state is set to `Requesting` and the provider's `check()` is
invoked. -/
theorem request_while_unexpectedError (inp : RequestInputs)
    (h : inp.prevState = PermissionState.unexpectedError) :
    Event.checkCall ∈ (maybeRequestPermission inp).events ∧
    Event.stateSet PermissionState.requesting ∈
      (maybeRequestPermission inp).events := by
  obtain ⟨noRender, isAuto, prev, checkR, askR⟩ := inp
  simp only at h
  subst h
  unfold maybeRequestPermission
  rw [if_neg (fun hc => PermissionState.noConfusion hc),
    if_neg (fun hc => PermissionState.noConfusion hc.1)]
  rcases checkR with ⟨cst, cask⟩ | _
  · simp only
    split_ifs <;> rcases askR with ⟨ast, aask⟩ | _ <;>
      simp [setStateEvents] <;> split_ifs <;> simp
  · simp [setStateEvents]

/-- C7 amended witness: concrete instance of
`request_while_unexpectedError`. -/
theorem request_while_unexpectedError_witness :
    Event.checkCall ∈ (maybeRequestPermission
      ⟨false, false, PermissionState.unexpectedError,
        ProviderResult.raise, ProviderResult.raise⟩).events ∧
    Event.stateSet PermissionState.requesting ∈ (maybeRequestPermission
      ⟨false, false, PermissionState.unexpectedError,
        ProviderResult.raise, ProviderResult.raise⟩).events :=
  request_while_unexpectedError
    ⟨false, false, PermissionState.unexpectedError,
      ProviderResult.raise, ProviderResult.raise⟩ rfl

/-- C1: when the acquisition sequence runs and `check()` returns status
`GRANTED`, `ask()` is never invoked, the Settings Redirect Flow is never
invoked, the session state is set to `Granted`, and `request()` resolves
with `Granted`. -/
theorem check_granted_skips_ask (inp : RequestInputs)
    (r : PermissionResponse) (hrun : acquisitionRuns inp)
    (hcheck : inp.checkResult = ProviderResult.ok r)
    (hst : r.status = PermissionStatus.granted) :
    Event.askCall ∉ (maybeRequestPermission inp).events ∧
    Event.settingsFlow ∉ (maybeRequestPermission inp).events ∧
    (maybeRequestPermission inp).finalState = PermissionState.granted ∧
    (maybeRequestPermission inp).resolved = PermissionState.granted := by
  obtain ⟨noRender, isAuto, prev, checkR, askR⟩ := inp
  have h1 := hrun.1
  have h2 := not_busy_of_acquisitionRuns hrun
  simp only at h1 h2 hcheck
  subst hcheck
  unfold maybeRequestPermission
  rw [if_neg h1, if_neg h2]
  simp only [hst, if_pos rfl]
  simp [setStateEvents]

/-- C1 witness: concrete instance of `check_granted_skips_ask`. -/
theorem check_granted_skips_ask_witness :
    Event.askCall ∉ (maybeRequestPermission
      ⟨false, false, PermissionState.notYetRequested,
        ProviderResult.ok ⟨PermissionStatus.granted, true⟩,
        ProviderResult.raise⟩).events ∧
    Event.settingsFlow ∉ (maybeRequestPermission
      ⟨false, false, PermissionState.notYetRequested,
        ProviderResult.ok ⟨PermissionStatus.granted, true⟩,
        ProviderResult.raise⟩).events ∧
    (maybeRequestPermission
      ⟨false, false, PermissionState.notYetRequested,
        ProviderResult.ok ⟨PermissionStatus.granted, true⟩,
        ProviderResult.raise⟩).finalState = PermissionState.granted ∧
    (maybeRequestPermission
      ⟨false, false, PermissionState.notYetRequested,
        ProviderResult.ok ⟨PermissionStatus.granted, true⟩,
        ProviderResult.raise⟩).resolved = PermissionState.granted :=
  check_granted_skips_ask
    ⟨false, false, PermissionState.notYetRequested,
      ProviderResult.ok ⟨PermissionStatus.granted, true⟩,
      ProviderResult.raise⟩
    ⟨PermissionStatus.granted, true⟩ (by decide) rfl rfl

/-- C2: when the acquisition sequence runs and `check()` returns `DENIED`
with `canAskAgain = false`, the Settings Redirect Flow is invoked exactly
once, and in the trace the unique `settingsFlow` is immediately followed by
the `askCall` — the flow completes before `ask()` is called, and emits no
state write (or any other event) itself. -/
theorem settings_flow_once_before_ask (inp : RequestInputs)
    (hrun : acquisitionRuns inp)
    (hcheck : inp.checkResult =
      ProviderResult.ok ⟨PermissionStatus.denied, false⟩) :
    (maybeRequestPermission inp).events.count Event.settingsFlow = 1 ∧
    ∃ suffix : List Event,
      (maybeRequestPermission inp).events =
        setStateEvents inp.noRender inp.prevState
          PermissionState.requesting ++
        [Event.checkCall, Event.settingsFlow, Event.askCall] ++ suffix ∧
      Event.askCall ∉ suffix ∧ Event.settingsFlow ∉ suffix := by
  obtain ⟨noRender, isAuto, prev, checkR, askR⟩ := inp
  have h1 := hrun.1
  have h2 := not_busy_of_acquisitionRuns hrun
  simp only at h1 h2 hcheck
  subst hcheck
  rw [acquisition_ok_not_granted noRender isAuto prev
    ⟨PermissionStatus.denied, false⟩ askR h1 h2 (by decide)]
  refine ⟨?_, afterAskEvents noRender ⟨PermissionStatus.denied, false⟩ askR,
    ?_, askCall_not_mem_afterAskEvents _ _ _,
    settingsFlow_not_mem_afterAskEvents _ _ _⟩
  · simp [List.count_append, List.count_cons,
      List.count_eq_zero.mpr (settingsFlow_not_mem_setStateEvents noRender
        prev PermissionState.requesting),
      List.count_eq_zero.mpr (settingsFlow_not_mem_afterAskEvents noRender
        ⟨PermissionStatus.denied, false⟩ askR)]
  · simp

/-- C2 witness: concrete instance of `settings_flow_once_before_ask`. -/
theorem settings_flow_once_before_ask_witness :
    (maybeRequestPermission
      ⟨false, false, PermissionState.notYetRequested,
        ProviderResult.ok ⟨PermissionStatus.denied, false⟩,
        ProviderResult.ok ⟨PermissionStatus.granted, true⟩⟩).events.count
      Event.settingsFlow = 1 ∧
    ∃ suffix : List Event,
      (maybeRequestPermission
        ⟨false, false, PermissionState.notYetRequested,
          ProviderResult.ok ⟨PermissionStatus.denied, false⟩,
          ProviderResult.ok ⟨PermissionStatus.granted, true⟩⟩).events =
        setStateEvents false PermissionState.notYetRequested
          PermissionState.requesting ++
        [Event.checkCall, Event.settingsFlow, Event.askCall] ++ suffix ∧
      Event.askCall ∉ suffix ∧ Event.settingsFlow ∉ suffix :=
  settings_flow_once_before_ask
    ⟨false, false, PermissionState.notYetRequested,
      ProviderResult.ok ⟨PermissionStatus.denied, false⟩,
      ProviderResult.ok ⟨PermissionStatus.granted, true⟩⟩
    (by decide) rfl

/-- C3: when the acquisition sequence runs, `check()` returned a
non-granted response `cr`, and `ask()` returns `DENIED`: if
`cr.canAskAgain` is false the one-shot informational dialog is shown
exactly once, and if `cr.canAskAgain` is true no dialog is shown; in both
cases the final state is `Denied` and `request()` resolves with
`Denied`. -/
theorem ask_denied_outcomes (inp : RequestInputs) (cr : PermissionResponse)
    (aask : Bool) (hrun : acquisitionRuns inp)
    (hcheck : inp.checkResult = ProviderResult.ok cr)
    (hst : cr.status ≠ PermissionStatus.granted)
    (hask : inp.askResult =
      ProviderResult.ok ⟨PermissionStatus.denied, aask⟩) :
    (cr.canAskAgain = false →
      (maybeRequestPermission inp).events.count Event.dialog = 1) ∧
    (cr.canAskAgain = true →
      Event.dialog ∉ (maybeRequestPermission inp).events) ∧
    (maybeRequestPermission inp).finalState = PermissionState.denied ∧
    (maybeRequestPermission inp).resolved = PermissionState.denied := by
  obtain ⟨noRender, isAuto, prev, checkR, askR⟩ := inp
  have h1 := hrun.1
  have h2 := not_busy_of_acquisitionRuns hrun
  simp only at h1 h2 hcheck hask
  subst hcheck
  subst hask
  rw [acquisition_ok_not_granted noRender isAuto prev cr
    (ProviderResult.ok ⟨PermissionStatus.denied, aask⟩) h1 h2 hst]
  refine ⟨?_, ?_, ?_, ?_⟩
  · intro hca
    simp [afterAskEvents, hca, List.count_append, List.count_cons,
      List.count_eq_zero.mpr (dialog_not_mem_setStateEvents noRender prev
        PermissionState.requesting),
      List.count_eq_zero.mpr (dialog_not_mem_setStateEvents noRender
        PermissionState.requesting PermissionState.denied)]
  · intro hca
    simp [afterAskEvents, hca, List.mem_append,
      dialog_not_mem_setStateEvents]
  · simp [afterAskState]
  · simp [afterAskState]

/-- C3 witness: concrete instance of `ask_denied_outcomes` (check denied
with `canAskAgain = false`, ask denied). -/
theorem ask_denied_outcomes_witness :
    ((⟨PermissionStatus.denied, false⟩ : PermissionResponse).canAskAgain =
        false →
      (maybeRequestPermission
        ⟨false, false, PermissionState.notYetRequested,
          ProviderResult.ok ⟨PermissionStatus.denied, false⟩,
          ProviderResult.ok ⟨PermissionStatus.denied, false⟩⟩).events.count
        Event.dialog = 1) ∧
    ((⟨PermissionStatus.denied, false⟩ : PermissionResponse).canAskAgain =
        true →
      Event.dialog ∉ (maybeRequestPermission
        ⟨false, false, PermissionState.notYetRequested,
          ProviderResult.ok ⟨PermissionStatus.denied, false⟩,
          ProviderResult.ok ⟨PermissionStatus.denied, false⟩⟩).events) ∧
    (maybeRequestPermission
      ⟨false, false, PermissionState.notYetRequested,
        ProviderResult.ok ⟨PermissionStatus.denied, false⟩,
        ProviderResult.ok ⟨PermissionStatus.denied, false⟩⟩).finalState =
      PermissionState.denied ∧
    (maybeRequestPermission
      ⟨false, false, PermissionState.notYetRequested,
        ProviderResult.ok ⟨PermissionStatus.denied, false⟩,
        ProviderResult.ok ⟨PermissionStatus.denied, false⟩⟩).resolved =
      PermissionState.denied :=
  ask_denied_outcomes
    ⟨false, false, PermissionState.notYetRequested,
      ProviderResult.ok ⟨PermissionStatus.denied, false⟩,
      ProviderResult.ok ⟨PermissionStatus.denied, false⟩⟩
    ⟨PermissionStatus.denied, false⟩ false (by decide) rfl (by decide) rfl

/-- C9: when the acquisition sequence runs and `check()` returns a response
`cr`, the Settings Redirect Flow is invoked exactly when `cr.status` is not
`GRANTED` and `cr.canAskAgain` is false — the trigger is "not granted and
cannot ask again", not specifically a `DENIED` check status (an
`UNDETERMINED` check with `canAskAgain = false` also triggers it). -/
theorem settings_flow_trigger (inp : RequestInputs)
    (cr : PermissionResponse) (hrun : acquisitionRuns inp)
    (hcheck : inp.checkResult = ProviderResult.ok cr) :
    Event.settingsFlow ∈ (maybeRequestPermission inp).events ↔
      (cr.status ≠ PermissionStatus.granted ∧ cr.canAskAgain = false) := by
  obtain ⟨noRender, isAuto, prev, checkR, askR⟩ := inp
  have h1 := hrun.1
  have h2 := not_busy_of_acquisitionRuns hrun
  simp only at h1 h2 hcheck
  subst hcheck
  by_cases hst : cr.status = PermissionStatus.granted
  · rw [acquisition_ok_granted noRender isAuto prev cr askR h1 h2 hst]
    simp [hst, List.mem_append, settingsFlow_not_mem_setStateEvents]
  · rw [acquisition_ok_not_granted noRender isAuto prev cr askR h1 h2 hst]
    by_cases hca : cr.canAskAgain = false <;>
      simp [hst, hca, List.mem_append,
        settingsFlow_not_mem_setStateEvents,
        settingsFlow_not_mem_afterAskEvents]

/-- C9 witness: concrete instance of `settings_flow_trigger` with an
`UNDETERMINED` check status and `canAskAgain = false`. -/
theorem settings_flow_trigger_witness :
    Event.settingsFlow ∈ (maybeRequestPermission
      ⟨false, false, PermissionState.notYetRequested,
        ProviderResult.ok ⟨PermissionStatus.undetermined, false⟩,
        ProviderResult.ok ⟨PermissionStatus.granted, true⟩⟩).events ↔
      ((⟨PermissionStatus.undetermined, false⟩ :
          PermissionResponse).status ≠ PermissionStatus.granted ∧
        (⟨PermissionStatus.undetermined, false⟩ :
          PermissionResponse).canAskAgain = false) :=
  settings_flow_trigger
    ⟨false, false, PermissionState.notYetRequested,
      ProviderResult.ok ⟨PermissionStatus.undetermined, false⟩,
      ProviderResult.ok ⟨PermissionStatus.granted, true⟩⟩
    ⟨PermissionStatus.undetermined, false⟩ (by decide) rfl

/-- C4: when the acquisition sequence runs and the provider's `check()`
raises, or `check()` returns non-granted and `ask()` raises, `request()`
resolves (never rejects) with `UnexpectedError`, the session state is set
to `UnexpectedError`, and exactly one diagnostic report is emitted to the
notification sink. -/
theorem provider_raise_unexpected (inp : RequestInputs)
    (hrun : acquisitionRuns inp)
    (hfail : inp.checkResult = ProviderResult.raise ∨
      (∃ cr : PermissionResponse, inp.checkResult = ProviderResult.ok cr ∧
        cr.status ≠ PermissionStatus.granted ∧
        inp.askResult = ProviderResult.raise)) :
    (maybeRequestPermission inp).resolved =
      PermissionState.unexpectedError ∧
    (maybeRequestPermission inp).finalState =
      PermissionState.unexpectedError ∧
    (maybeRequestPermission inp).events.countP Event.isReport = 1 := by
  obtain ⟨noRender, isAuto, prev, checkR, askR⟩ := inp
  have h1 := hrun.1
  have h2 := not_busy_of_acquisitionRuns hrun
  simp only at h1 h2 hfail
  rcases hfail with hc | ⟨cr, hc, hst, ha⟩
  · subst hc
    rw [acquisition_raise noRender isAuto prev askR h1 h2]
    refine ⟨rfl, rfl, ?_⟩
    simp [List.countP_append, List.countP_cons,
      countP_isReport_setStateEvents, Event.isReport]
  · subst hc
    subst ha
    rw [acquisition_ok_not_granted noRender isAuto prev cr
      ProviderResult.raise h1 h2 hst]
    refine ⟨by simp [afterAskState], by simp [afterAskState], ?_⟩
    by_cases hca : cr.canAskAgain = false <;>
      simp [hca, List.countP_append, List.countP_cons,
        countP_isReport_setStateEvents,
        countP_isReport_afterAskEvents_raise, Event.isReport]

/-- C4 witness: concrete instance of `provider_raise_unexpected` with a
raising `check()`. -/
theorem provider_raise_unexpected_witness :
    (maybeRequestPermission
      ⟨false, false, PermissionState.notYetRequested,
        ProviderResult.raise, ProviderResult.raise⟩).resolved =
      PermissionState.unexpectedError ∧
    (maybeRequestPermission
      ⟨false, false, PermissionState.notYetRequested,
        ProviderResult.raise, ProviderResult.raise⟩).finalState =
      PermissionState.unexpectedError ∧
    (maybeRequestPermission
      ⟨false, false, PermissionState.notYetRequested,
        ProviderResult.raise, ProviderResult.raise⟩).events.countP
      Event.isReport = 1 :=
  provider_raise_unexpected
    ⟨false, false, PermissionState.notYetRequested,
      ProviderResult.raise, ProviderResult.raise⟩
    (by decide) (Or.inl rfl)

/-- C10: with the `noRender` option set, the API object's `state` is always
`undefined` (`none`) regardless of the internally tracked state, the
invocation never emits a `forceUpdate()` re-render notification, and
`request()` still resolves with the computed final `PermissionState`. -/
theorem noRender_state_undefined (inp : RequestInputs)
    (h : inp.noRender = true) :
    (∀ s : PermissionState, usePermissionState true s = none) ∧
    Event.render ∉ (maybeRequestPermission inp).events ∧
    (maybeRequestPermission inp).resolved =
      (maybeRequestPermission inp).finalState :=
  ⟨fun _ => rfl, render_not_mem_events_noRender inp h,
    resolved_eq_finalState inp⟩

/-- C10 witness: concrete instance of `noRender_state_undefined`. -/
theorem noRender_state_undefined_witness :
    (∀ s : PermissionState, usePermissionState true s = none) ∧
    Event.render ∉ (maybeRequestPermission
      ⟨true, false, PermissionState.notYetRequested,
        ProviderResult.ok ⟨PermissionStatus.granted, true⟩,
        ProviderResult.raise⟩).events ∧
    (maybeRequestPermission
      ⟨true, false, PermissionState.notYetRequested,
        ProviderResult.ok ⟨PermissionStatus.granted, true⟩,
        ProviderResult.raise⟩).resolved =
      (maybeRequestPermission
        ⟨true, false, PermissionState.notYetRequested,
          ProviderResult.ok ⟨PermissionStatus.granted, true⟩,
          ProviderResult.raise⟩).finalState :=
  noRender_state_undefined
    ⟨true, false, PermissionState.notYetRequested,
      ProviderResult.ok ⟨PermissionStatus.granted, true⟩,
      ProviderResult.raise⟩ rfl

/-- C8: the app-state listener installed by `openPermissionSettings`
resolves only upon a change to `active` occurring strictly more than
1000 ms after the settings screen was opened: a sequence with no such
qualifying event leaves the promise pending and the listener subscribed,
and for any sequence whose first qualifying event is `q`, the listener is
unsubscribed and the promise resolved at `q`, all earlier events being
ignored and all later events having no further effect. -/
theorem openPermissionSettings_debounce (settingsOpenedAt : Int) :
    (∀ evs : List AppStateEvent,
      (∀ ev ∈ evs, ¬ qualifying settingsOpenedAt ev) →
      runAppStateListener settingsOpenedAt evs = initialListener) ∧
    (∀ pre post : List AppStateEvent, ∀ q : AppStateEvent,
      (∀ ev ∈ pre, ¬ qualifying settingsOpenedAt ev) →
      qualifying settingsOpenedAt q →
      runAppStateListener settingsOpenedAt (pre ++ q :: post) =
        { subscribed := false, resolved := true }) := by
  constructor
  · intro evs h
    exact foldl_handle_not_qualifying settingsOpenedAt evs initialListener h
  · intro pre post q hpre hq
    unfold runAppStateListener
    rw [List.foldl_append,
      foldl_handle_not_qualifying settingsOpenedAt pre initialListener hpre,
      List.foldl_cons]
    have hstep : handleAppStateChange settingsOpenedAt initialListener q =
        { subscribed := false, resolved := true } := by
      unfold qualifying at hq
      unfold handleAppStateChange initialListener
      rw [if_neg (by simp), if_pos hq]
    rw [hstep]
    exact foldl_handle_after_resolved settingsOpenedAt post true

/-- C8 witness: concrete instance of `openPermissionSettings_debounce`: an
early `active` blip at 500 ms and a `background` at 900 ms are ignored, the
`active` at 1500 ms resolves and unsubscribes, and a later `active` has no
effect. -/
theorem openPermissionSettings_debounce_witness :
    runAppStateListener 0
      [⟨AppStateStatus.active, 500⟩, ⟨AppStateStatus.background, 900⟩,
       ⟨AppStateStatus.active, 1500⟩, ⟨AppStateStatus.active, 2000⟩] =
      { subscribed := false, resolved := true } :=
  (openPermissionSettings_debounce 0).2
    [⟨AppStateStatus.active, 500⟩, ⟨AppStateStatus.background, 900⟩]
    [⟨AppStateStatus.active, 2000⟩] ⟨AppStateStatus.active, 1500⟩
    (by decide) (by decide)

end PermissionFlow
